import Mathlib

/-!
Verification of the billing-service core against its specification.

This file gives a shallow embedding of the decision logic of the billing
backend: payment refunds, webhook payment reconciliation, invoice balance
updates, the subscription lifecycle operations, period advancement,
proration, revenue aggregation (MRR/ARR) and the paginated sync engine's
bounded retry.

Conventions of the embedding:
* monetary amounts and JavaScript numbers are embedded as exact rationals;
* fallible service operations (`throw` in the source) return `Except`;
* a repository `findById` that the claim assumes to succeed is embedded by
  handing the operation the found record directly, and `repository.update`
  becomes a functional record update;
* timestamps irrelevant to the claims (`updatedAt`, `createdAt`, `paidAt`)
  are dropped from the records.
-/

/-- PaymentStatus union from `types/billing`. -/
inductive PaymentStatus where
  | pending
  | processing
  | succeeded
  | failed
  | canceled
  | refunded
  | partially_refunded
  deriving DecidableEq, Repr

/-- Error taxonomy of the service layer (the source throws `Error`; the
spec classifies the throws as NotFound / InvalidState / InvalidInput). -/
inductive BillingErr where
  | notFound
  | invalidState
  | invalidInput
  deriving DecidableEq, Repr

/-- The claim-relevant fields of a `Payment` record from `types/billing`. -/
structure Payment where
  amount : ℚ
  refundedAmount : ℚ
  status : PaymentStatus
  invoiceId : Option String
  deriving DecidableEq, Repr

/-- Embedding of `PaymentService.refundPayment`: gate on `succeeded` status,
amount defaulting via JavaScript `input.amount || (amount - refundedAmount)`
(so a requested amount of 0 falls back to the full remaining amount), the
excess check, and the refunded / partially_refunded status update.  On
success it returns the updated payment together with the created refund's
amount. -/
def refundPayment (p : Payment) (reqAmount : Option ℚ) :
    Except BillingErr (Payment × ℚ) :=
  if p.status ≠ PaymentStatus.succeeded then
    Except.error BillingErr.invalidState
  else
    let remaining := p.amount - p.refundedAmount
    let refundAmount :=
      match reqAmount with
      | some a => if a = 0 then remaining else a
      | none => remaining
    if refundAmount > remaining then
      Except.error BillingErr.invalidInput
    else
      let newRefundedAmount := p.refundedAmount + refundAmount
      let newStatus :=
        if newRefundedAmount ≥ p.amount then PaymentStatus.refunded
        else PaymentStatus.partially_refunded
      Except.ok
        ({ p with refundedAmount := newRefundedAmount, status := newStatus },
          refundAmount)

/-- One refund attempt viewed as a transition on the stored payment record: a
thrown error leaves the record unchanged (the source throws before any
`paymentRepository.update`). -/
def refundStep (p : Payment) (reqAmount : Option ℚ) : Payment :=
  match refundPayment p reqAmount with
  | Except.ok pr => pr.1
  | Except.error _ => p

/-- A sequence of `refundPayment` calls applied to one payment record. -/
def applyRefunds (p : Payment) (reqs : List (Option ℚ)) : Payment :=
  reqs.foldl refundStep p

/-- Concrete payment used to witness the refund-bound theorem. -/
def paymentC7 : Payment :=
  { amount := 100, refundedAmount := 0, status := PaymentStatus.succeeded,
    invoiceId := none }

/-- Concrete succeeded payment used to witness the single-refund theorem. -/
def paymentC10 : Payment :=
  { amount := 100, refundedAmount := 0, status := PaymentStatus.succeeded,
    invoiceId := none }

/-- Concrete non-succeeded payment used to witness the single-refund theorem. -/
def paymentC10pending : Payment :=
  { amount := 100, refundedAmount := 0, status := PaymentStatus.pending,
    invoiceId := none }

/-- InvoiceStatus union from `types/billing` (`open_` stands for the source
status string `open`, which is a keyword in Lean). -/
inductive InvoiceStatus where
  | draft
  | open_
  | paid
  | void
  | uncollectible
  | past_due
  deriving DecidableEq, Repr

/-- The claim-relevant fields of an `InvoiceLineItem` from `types/billing`. -/
structure InvoiceLineItem where
  id : String
  quantity : ℚ
  unitPrice : ℚ
  amount : ℚ
  taxRate : Option ℚ
  taxAmount : ℚ
  deriving DecidableEq, Repr

/-- The claim-relevant fields of an `Invoice` record from `types/billing`. -/
structure Invoice where
  status : InvoiceStatus
  subtotal : ℚ
  tax : ℚ
  total : ℚ
  amountPaid : ℚ
  amountDue : ℚ
  lineItems : List InvoiceLineItem
  deriving DecidableEq, Repr

/-- The invoice balance equation of spec property P3. -/
def invoiceBalanced (inv : Invoice) : Prop :=
  inv.amountPaid + inv.amountDue = inv.total

/-- Balance equation lifted to the result of a fallible invoice operation. -/
def invoiceBalancedE : Except BillingErr Invoice → Prop
  | Except.ok inv => invoiceBalanced inv
  | Except.error _ => True

/-- Embedding of `PaymentService.mapStripePaymentStatus`. -/
def mapStripePaymentStatus (stripeStatus : String) : PaymentStatus :=
  match stripeStatus with
  | "succeeded" => PaymentStatus.succeeded
  | "processing" => PaymentStatus.processing
  | "requires_payment_method" => PaymentStatus.pending
  | "requires_confirmation" => PaymentStatus.pending
  | "requires_action" => PaymentStatus.pending
  | "canceled" => PaymentStatus.canceled
  | _ => PaymentStatus.failed

/-- Embedding of `PaymentService.updateInvoicePayment` applied to the found
invoice: `amountPaid` is blindly incremented, `amountDue` is clamped at 0,
and the invoice flips to `paid` when the clamped `amountDue` is exactly 0. -/
def updateInvoicePayment (inv : Invoice) (amount : ℚ) : Invoice :=
  let newAmountPaid := inv.amountPaid + amount
  let newAmountDue := max 0 (inv.total - newAmountPaid)
  let newStatus :=
    if newAmountDue = 0 then InvoiceStatus.paid else inv.status
  { inv with
      amountPaid := newAmountPaid, amountDue := newAmountDue,
      status := newStatus }

/-- The state touched by a webhook payment update: the payment found by its
payment-intent id and, when `payment.invoiceId` resolves, the linked
invoice. -/
structure WebhookState where
  payment : Payment
  invoice : Option Invoice
  deriving DecidableEq, Repr

/-- Embedding of `PaymentService.processWebhookPaymentUpdate` for a delivered
payment event: the payment status is always rewritten to the mapped status,
and when the mapped status is `succeeded` and the payment has a linked
invoice, `updateInvoicePayment` is applied with the payment amount. -/
def processWebhookPaymentUpdate (st : WebhookState) (stripeStatus : String) :
    WebhookState :=
  let newStatus := mapStripePaymentStatus stripeStatus
  let updatedPayment := { st.payment with status := newStatus }
  if newStatus = PaymentStatus.succeeded ∧ st.payment.invoiceId.isSome then
    { payment := updatedPayment,
      invoice :=
        st.invoice.map (fun inv => updateInvoicePayment inv st.payment.amount) }
  else
    { payment := updatedPayment, invoice := st.invoice }

/-- Input of `InvoiceService.addLineItem` (`CreateLineItemInput`). -/
structure CreateLineItemInput where
  id : String
  quantity : ℚ
  unitPrice : ℚ
  taxRate : Option ℚ
  deriving DecidableEq, Repr

/-- Line-item construction shared by `createInvoice` and `addLineItem`:
`amount = quantity * unitPrice`, and `taxAmount` follows the JavaScript
`input.taxRate ? amount * (input.taxRate / 100) : 0` (a `taxRate` of 0 is
falsy and yields 0). -/
def lineItemOfInput (input : CreateLineItemInput) : InvoiceLineItem :=
  let amount := input.quantity * input.unitPrice
  let taxAmount :=
    match input.taxRate with
    | some r => if r = 0 then 0 else amount * (r / 100)
    | none => 0
  { id := input.id, quantity := input.quantity, unitPrice := input.unitPrice,
    amount := amount, taxRate := input.taxRate, taxAmount := taxAmount }

/-- Embedding of `InvoiceService.addLineItem`: draft gate, append the new
item, recompute subtotal / tax / total from all items, and set
`amountDue = total - amountPaid`. -/
def addLineItem (inv : Invoice) (input : CreateLineItemInput) :
    Except BillingErr Invoice :=
  if inv.status ≠ InvoiceStatus.draft then
    Except.error BillingErr.invalidState
  else
    let newLineItems := inv.lineItems ++ [lineItemOfInput input]
    let subtotal := newLineItems.foldl (fun s it => s + it.amount) 0
    let tax := newLineItems.foldl (fun s it => s + it.taxAmount) 0
    let total := subtotal + tax
    Except.ok
      { inv with
          lineItems := newLineItems, subtotal := subtotal, tax := tax,
          total := total, amountDue := total - inv.amountPaid }

/-- Embedding of `InvoiceService.removeLineItem`: draft gate, filter the item
out, recompute subtotal / tax / total, set `amountDue = total - amountPaid`. -/
def removeLineItem (inv : Invoice) (lineItemId : String) :
    Except BillingErr Invoice :=
  if inv.status ≠ InvoiceStatus.draft then
    Except.error BillingErr.invalidState
  else
    let newLineItems := inv.lineItems.filter (fun it => it.id ≠ lineItemId)
    let subtotal := newLineItems.foldl (fun s it => s + it.amount) 0
    let tax := newLineItems.foldl (fun s it => s + it.taxAmount) 0
    let total := subtotal + tax
    Except.ok
      { inv with
          lineItems := newLineItems, subtotal := subtotal, tax := tax,
          total := total, amountDue := total - inv.amountPaid }

/-- Failing input for the webhook idempotency claim: a processing payment of
100 linked to an open invoice with total 200 and nothing paid yet. -/
def webhookStateC1 : WebhookState :=
  { payment :=
      { amount := 100, refundedAmount := 0, status := PaymentStatus.processing,
        invoiceId := some "inv-1" },
    invoice :=
      some
        { status := InvoiceStatus.open_, subtotal := 200, tax := 0,
          total := 200, amountPaid := 0, amountDue := 200, lineItems := [] } }

/-- Counterexample invoice for the balance claim: open invoice with total 100
and nothing paid. -/
def invoiceC3 : Invoice :=
  { status := InvoiceStatus.open_, subtotal := 100, tax := 0, total := 100,
    amountPaid := 0, amountDue := 100, lineItems := [] }

/-- Concrete draft invoice used to witness the amended balance theorem. -/
def invoiceC3draft : Invoice :=
  { status := InvoiceStatus.draft, subtotal := 100, tax := 0, total := 100,
    amountPaid := 0, amountDue := 100,
    lineItems :=
      [{ id := "li-1", quantity := 1, unitPrice := 100, amount := 100,
         taxRate := none, taxAmount := 0 }] }

/-- Concrete line-item input used to witness the amended balance theorem. -/
def lineItemInputC3 : CreateLineItemInput :=
  { id := "li-2", quantity := 2, unitPrice := 25, taxRate := some 10 }

/-- SubscriptionStatus union from `types/billing`. -/
inductive SubscriptionStatus where
  | active
  | past_due
  | unpaid
  | canceled
  | incomplete
  | incomplete_expired
  | trialing
  | paused
  deriving DecidableEq, Repr

/-- Currency union from `types/common`. -/
inductive Currency where
  | USD
  | EUR
  | GBP
  | CAD
  | AUD
  | JPY
  deriving DecidableEq, Repr

/-- BillingInterval union from `types/billing`. -/
inductive BillingInterval where
  | day
  | week
  | month
  | year
  deriving DecidableEq, Repr

/-- The claim-relevant fields of a `Plan` record from `types/billing`. -/
structure Plan where
  id : String
  amount : ℚ
  currency : Currency
  interval : BillingInterval
  intervalCount : ℕ
  active : Bool
  deriving DecidableEq, Repr

/-- Calendar date at day granularity: the `Date` values stored in the
subscription period fields, as manipulated by dayjs calendar arithmetic
(time-of-day is irrelevant to the claims about period advancement). -/
structure CalDate where
  year : ℕ
  month : ℕ
  day : ℕ
  deriving DecidableEq, Repr

/-- Gregorian leap-year rule (as implemented by dayjs / JavaScript Date). -/
def isLeapYear (y : ℕ) : Bool :=
  y % 4 = 0 && (y % 100 ≠ 0 || y % 400 = 0)

/-- Length of a calendar month. -/
def daysInMonth (y m : ℕ) : ℕ :=
  if m = 2 then (if isLeapYear y then 29 else 28)
  else if m = 4 ∨ m = 6 ∨ m = 9 ∨ m = 11 then 30
  else 31

/-- dayjs month addition `dayjs(d).add(n, 'month')`: advance the month
arithmetically and clamp the day-of-month to the target month's length. -/
def addMonths (n : ℕ) (d : CalDate) : CalDate :=
  let t := d.month - 1 + n
  let y := d.year + t / 12
  let m := t % 12 + 1
  { year := y, month := m, day := min d.day (daysInMonth y m) }

/-- Successor day in the calendar. -/
def succDay (d : CalDate) : CalDate :=
  if d.day < daysInMonth d.year d.month then { d with day := d.day + 1 }
  else if d.month < 12 then { year := d.year, month := d.month + 1, day := 1 }
  else { year := d.year + 1, month := 1, day := 1 }

/-- dayjs day addition `dayjs(d).add(n, 'day')`. -/
def addDays : ℕ → CalDate → CalDate
  | 0, d => d
  | n + 1, d => addDays n (succDay d)

/-- dayjs year addition `dayjs(d).add(n, 'year')` with Feb-29 clamping. -/
def addYears (n : ℕ) (d : CalDate) : CalDate :=
  { year := d.year + n, month := d.month,
    day := min d.day (daysInMonth (d.year + n) d.month) }

/-- dayjs `.add(count, interval)` over the plan's billing interval, as used
by `SubscriptionService.calculatePeriodEnd` and as the spec's
`newEnd = newStart + plan.interval × plan.intervalCount` reads. -/
def dayjsAdd (count : ℕ) (interval : BillingInterval) (d : CalDate) :
    CalDate :=
  match interval with
  | BillingInterval.day => addDays count d
  | BillingInterval.week => addDays (7 * count) d
  | BillingInterval.month => addMonths count d
  | BillingInterval.year => addYears count d

/-- Well-formed calendar date. -/
def validDate (d : CalDate) : Prop :=
  1 ≤ d.month ∧ d.month ≤ 12 ∧ 1 ≤ d.day ∧
    d.day ≤ daysInMonth d.year d.month

/-- Strict chronological order on calendar dates. -/
def dateLt (a b : CalDate) : Prop :=
  a.year < b.year ∨ (a.year = b.year ∧
    (a.month < b.month ∨ (a.month = b.month ∧ a.day < b.day)))

instance (d : CalDate) : Decidable (validDate d) := by
  unfold validDate
  exact inferInstance

instance (a b : CalDate) : Decidable (dateLt a b) := by
  unfold dateLt
  exact inferInstance

/-- The claim-relevant fields of a `Subscription` record from
`types/billing`. -/
structure SubscriptionRec where
  status : SubscriptionStatus
  planId : String
  quantity : ℚ
  currency : Currency
  currentPeriodStart : CalDate
  currentPeriodEnd : CalDate
  cancelAtPeriodEnd : Bool
  canceledAt : Option CalDate
  deriving DecidableEq, Repr

/-- Embedding of `SubscriptionService.resumeSubscription` on the found
record: the only lifecycle operation that checks for the canceled status;
on success it clears `cancelAtPeriodEnd` and `canceledAt`. -/
def resumeSubscription (sub : SubscriptionRec) :
    Except BillingErr SubscriptionRec :=
  if sub.status = SubscriptionStatus.canceled then
    Except.error BillingErr.invalidState
  else
    Except.ok { sub with cancelAtPeriodEnd := false, canceledAt := none }

/-- Embedding of `SubscriptionService.pauseSubscription` on the found
record: no status check at all; the status is overwritten with `paused`. -/
def pauseSubscription (sub : SubscriptionRec) :
    Except BillingErr SubscriptionRec :=
  Except.ok { sub with status := SubscriptionStatus.paused }

/-- Embedding of `SubscriptionService.unpauseSubscription` on the found
record: no status check; the status is overwritten with `active`. -/
def unpauseSubscription (sub : SubscriptionRec) :
    Except BillingErr SubscriptionRec :=
  Except.ok { sub with status := SubscriptionStatus.active }

/-- Input of `SubscriptionService.updateSubscription`; an absent field means
the stored value is kept (the source uses `||` for planId and `??` for the
other two, with presence modelled by `Option`). -/
structure UpdateSubscriptionInput where
  planId : Option String
  quantity : Option ℚ
  cancelAtPeriodEnd : Option Bool
  deriving DecidableEq, Repr

/-- Embedding of `SubscriptionService.updateSubscription` on the found
record: no status check; fields default to the stored values. -/
def updateSubscription (sub : SubscriptionRec)
    (input : UpdateSubscriptionInput) : Except BillingErr SubscriptionRec :=
  Except.ok
    { sub with
        planId := input.planId.getD sub.planId,
        quantity := input.quantity.getD sub.quantity,
        cancelAtPeriodEnd :=
          input.cancelAtPeriodEnd.getD sub.cancelAtPeriodEnd }

/-- Embedding of `SubscriptionService.changePlan` on the found record and
found new plan: rejects an inactive plan, but performs no status check on
the subscription; updates `planId` and `currency`. -/
def changePlan (sub : SubscriptionRec) (newPlan : Plan) :
    Except BillingErr SubscriptionRec :=
  if ¬ newPlan.active then Except.error BillingErr.invalidState
  else Except.ok { sub with planId := newPlan.id, currency := newPlan.currency }

/-- Embedding of `SubscriptionService.updateQuantity` on the found record:
rejects `quantity < 1`, but performs no status check. -/
def updateQuantity (sub : SubscriptionRec) (quantity : ℚ) :
    Except BillingErr SubscriptionRec :=
  if quantity < 1 then Except.error BillingErr.invalidInput
  else Except.ok { sub with quantity := quantity }

/-- Embedding of `BillingService.createInvoiceFromSubscription`: subtotal
and total are the subscription quantity, no tax, nothing paid, status
`open`, no line items. -/
def createInvoiceFromSubscription (sub : SubscriptionRec) : Invoice :=
  { status := InvoiceStatus.open_, subtotal := sub.quantity, tax := 0,
    total := sub.quantity, amountPaid := 0, amountDue := sub.quantity,
    lineItems := [] }

/-- Embedding of `BillingService.advanceSubscriptionPeriod`: the new period
start is the old period end, and the new period end is
`dayjs(newPeriodStart).add(1, 'month')` — one calendar month regardless of
the plan's interval. -/
def advanceSubscriptionPeriod (sub : SubscriptionRec) : SubscriptionRec :=
  { sub with
      currentPeriodStart := sub.currentPeriodEnd,
      currentPeriodEnd := addMonths 1 sub.currentPeriodEnd }

/-- Embedding of `BillingService.processEndOfPeriodBilling` on the found
subscription: `null` (`none`) when the subscription is not active,
otherwise the invoice synthesized for the closing period together with the
advanced subscription record. -/
def processEndOfPeriodBilling (sub : SubscriptionRec) :
    Option (Invoice × SubscriptionRec) :=
  if sub.status = SubscriptionStatus.active then
    some (createInvoiceFromSubscription sub, advanceSubscriptionPeriod sub)
  else none

/-- n successive period advances (the subscription-record part of n
successive `processEndOfPeriodBilling` calls on an active subscription). -/
def advanceIter : ℕ → SubscriptionRec → SubscriptionRec
  | 0, sub => sub
  | n + 1, sub => advanceIter n (advanceSubscriptionPeriod sub)

/-- Active subscription on a daily plan whose period ends on 2024-01-31;
failing input for the period-advance claim. -/
def subC4 : SubscriptionRec :=
  { status := SubscriptionStatus.active, planId := "plan-day", quantity := 30,
    currency := Currency.USD,
    currentPeriodStart := { year := 2024, month := 1, day := 1 },
    currentPeriodEnd := { year := 2024, month := 1, day := 31 },
    cancelAtPeriodEnd := false, canceledAt := none }

/-- The daily plan (interval `day`, count 1) of `subC4`. -/
def planC4day : Plan :=
  { id := "plan-day", amount := 10, currency := Currency.USD,
    interval := BillingInterval.day, intervalCount := 1, active := true }

/-- Concrete canceled subscription for the terminality claim. -/
def subC8canceled : SubscriptionRec :=
  { status := SubscriptionStatus.canceled, planId := "plan-a", quantity := 1,
    currency := Currency.USD,
    currentPeriodStart := { year := 2024, month := 3, day := 1 },
    currentPeriodEnd := { year := 2024, month := 4, day := 1 },
    cancelAtPeriodEnd := false,
    canceledAt := some { year := 2024, month := 3, day := 15 } }

/-- Concrete active plan used to witness the terminality theorem. -/
def planC8 : Plan :=
  { id := "plan-b", amount := 50, currency := Currency.EUR,
    interval := BillingInterval.month, intervalCount := 1, active := true }

/-- Concrete update input used to witness the terminality theorem. -/
def updateInputC8 : UpdateSubscriptionInput :=
  { planId := some "plan-b", quantity := some 3,
    cancelAtPeriodEnd := some true }

/-- Milliseconds per day, dayjs's `day` unit. -/
def msPerDay : ℤ := 86400000

/-- dayjs `a.diff(b, 'day')`: the millisecond difference divided by one
day, truncated toward zero. -/
def dayjsDiffDays (a b : ℤ) : ℤ :=
  Int.tdiv (a - b) msPerDay

/-- JavaScript `Math.round`: round half toward positive infinity. -/
def jsRound (x : ℚ) : ℤ :=
  ⌊x + 1 / 2⌋

/-- `Math.round(x * 100) / 100` — rounding to 2 decimals as the source
does. -/
def roundTo2 (x : ℚ) : ℚ :=
  (jsRound (x * 100) : ℚ) / 100

/-- Embedding of `BillingService.calculateProration` on the found
subscription (period timestamps in epoch milliseconds) and the resolved new
plan's amount.  The source has no `totalDays = 0` guard: there,
`currentDailyRate = quantity / 0` is a non-finite JavaScript number
(±Infinity or NaN) and all three outputs end up non-finite; the embedding
returns `none` for that non-finite outcome and `some` of the three rounded
outputs otherwise. -/
def calculateProration (periodStart periodEnd changeDate : ℤ)
    (quantity planAmount : ℚ) : Option (ℚ × ℚ × ℚ) :=
  let totalDays := dayjsDiffDays periodEnd periodStart
  let remainingDays := dayjsDiffDays periodEnd changeDate
  if totalDays = 0 then none
  else
    let currentDailyRate := quantity / (totalDays : ℚ)
    let credit := currentDailyRate * (remainingDays : ℚ)
    let newDailyRate := planAmount / (totalDays : ℚ)
    let charge := newDailyRate * (remainingDays : ℚ)
    some (roundTo2 credit, roundTo2 charge, roundTo2 (charge - credit))

/-- Modelled from the spec: rounding to 2 decimal places using
round-half-away-from-zero at the cent boundary. -/
def specRoundTo2 (x : ℚ) : ℚ :=
  if x < 0 then -((⌊-x * 100 + 1 / 2⌋ : ℚ) / 100)
  else (⌊x * 100 + 1 / 2⌋ : ℚ) / 100

/-- Modelled from the spec (§4.2): proration outputs
`credit = (currentQuantity / totalDays) * remainingDays`,
`charge = (newPlan.amount / totalDays) * remainingDays`,
`netAmount = charge - credit`, each rounded half-away-from-zero to 2
decimals, with the guarded `totalDays = 0` policy
`{credit: 0, charge: amount, netAmount: amount}`. -/
def specProration (totalDays remainingDays : ℤ)
    (quantity planAmount : ℚ) : ℚ × ℚ × ℚ :=
  if totalDays = 0 then (0, planAmount, planAmount)
  else
    let credit := quantity / (totalDays : ℚ) * (remainingDays : ℚ)
    let charge := planAmount / (totalDays : ℚ) * (remainingDays : ℚ)
    (specRoundTo2 credit, specRoundTo2 charge, specRoundTo2 (charge - credit))

/-- Embedding of `BillingService.normalizeToMonthly`: the interval
parameter is a string in the source, with a default branch returning the
amount unchanged. -/
def normalizeToMonthly (amount : ℚ) (interval : String) : ℚ :=
  match interval with
  | "day" => amount * 30
  | "week" => amount * 4
  | "month" => amount
  | "year" => amount / 12
  | _ => amount

/-- Embedding of `BillingService.calculateMRR` on the active subscriptions
(`findByStatus('active')`): filter to the requested currency, then sum
`normalizeToMonthly(s.quantity, 'month')` — note the source passes the
subscription quantity and hardcodes the interval string to `'month'`. -/
def calculateMRR (subs : List SubscriptionRec) (currency : Currency) : ℚ :=
  ((subs.filter fun s =>
      decide (s.status = SubscriptionStatus.active)).filter fun s =>
        decide (s.currency = currency)).foldl
    (fun sum s => sum + normalizeToMonthly s.quantity "month") 0

/-- The MRR/ARR components of `BillingService.getBillingOverview`: the
overview's other fields (totalRevenue, totalOutstanding, counts, churn)
are independent aggregates not involved in the MRR/ARR claim. -/
structure BillingOverviewMRR where
  monthlyRecurringRevenue : ℚ
  annualRecurringRevenue : ℚ
  deriving DecidableEq, Repr

/-- Embedding of the MRR/ARR computation of
`BillingService.getBillingOverview`: `arr = mrr * 12`. -/
def getBillingOverview (subs : List SubscriptionRec) (currency : Currency) :
    BillingOverviewMRR :=
  let mrr := calculateMRR subs currency
  { monthlyRecurringRevenue := mrr, annualRecurringRevenue := mrr * 12 }

/-- Modelled from the spec: the normalization table day×30, week×4,
month×1, year÷12 applied to the plan's billing interval. -/
def specNormalizeToMonthly (amount : ℚ) : BillingInterval → ℚ
  | BillingInterval.day => amount * 30
  | BillingInterval.week => amount * 4
  | BillingInterval.month => amount
  | BillingInterval.year => amount / 12

/-- Modelled from the spec: MRR as the sum, over active subscriptions in
the requested currency, of each subscription's amount normalized to
monthly by its plan's billing interval. -/
def specMRR (subs : List (SubscriptionRec × Plan)) (currency : Currency) :
    ℚ :=
  (subs.filter fun sp =>
      decide (sp.1.status = SubscriptionStatus.active ∧
        sp.1.currency = currency)).foldl
    (fun sum sp => sum + specNormalizeToMonthly sp.2.amount sp.2.interval) 0

/-- Active yearly-plan subscription with quantity 5: failing input for the
MRR claim. -/
def subC5 : SubscriptionRec :=
  { status := SubscriptionStatus.active, planId := "plan-year",
    quantity := 5, currency := Currency.USD,
    currentPeriodStart := { year := 2024, month := 1, day := 1 },
    currentPeriodEnd := { year := 2025, month := 1, day := 1 },
    cancelAtPeriodEnd := false, canceledAt := none }

/-- The yearly plan (amount 1200) of `subC5`. -/
def planC5year : Plan :=
  { id := "plan-year", amount := 1200, currency := Currency.USD,
    interval := BillingInterval.year, intervalCount := 1, active := true }

/-- Retry bound of `RampSyncService` (`MAX_RETRIES`). -/
def MAX_RETRIES : ℕ := 3

/-- Base backoff delay of `RampSyncService` in milliseconds
(`RETRY_DELAY_MS`). -/
def RETRY_DELAY_MS : ℕ := 1000

/-- The claim-relevant fields of a `RampTransaction` item. -/
structure RampTransaction where
  id : String
  amount : ℚ
  deriving DecidableEq, Repr

/-- `SyncError` run-report entry (timestamp dropped). -/
structure SyncError where
  type : String
  id : String
  message : String
  deriving DecidableEq, Repr

/-- Embedding of `RampSyncService.fetchTransactionsWithRetry` for one
cursor: `fetch` is the network outcome of each attempt number.  The result
pairs the backoff delays slept (`delay(RETRY_DELAY_MS * attempt)` before
each retry) with the final outcome; after the attempt counter reaches
`MAX_RETRIES` the last error is rethrown. -/
def fetchTransactionsWithRetry
    (fetch : ℕ → Except String (List RampTransaction)) (attempt : ℕ) :
    List ℕ × Except String (List RampTransaction) :=
  match fetch attempt with
  | Except.ok page => ([], Except.ok page)
  | Except.error e =>
    if _h : attempt < MAX_RETRIES then
      let rest := fetchTransactionsWithRetry fetch (attempt + 1)
      (RETRY_DELAY_MS * attempt :: rest.1, rest.2)
    else ([], Except.error e)
termination_by MAX_RETRIES - attempt
decreasing_by
  omega

/-- Per-item processing loop of `syncTransactions`: each item's failure is
recorded as a `SyncError {type: 'transaction', id, message}` and the loop
continues; `proc` stands for `processTransaction`. -/
def processPageItems (proc : RampTransaction → Except String Unit) :
    List RampTransaction → ℕ → List SyncError → ℕ × List SyncError
  | [], synced, errors => (synced, errors)
  | t :: rest, synced, errors =>
    match proc t with
    | Except.ok _ => processPageItems proc rest (synced + 1) errors
    | Except.error msg =>
      processPageItems proc rest synced
        (errors ++ [{ type := "transaction", id := t.id, message := msg }])

/-- The do/while page loop of `RampSyncService.syncTransactions`: the
cursor chain is the finite list of pages, each page given by its
per-attempt fetch outcome.  Every page fetch goes through
`fetchTransactionsWithRetry` starting at attempt 1; a fetch error after
retry exhaustion aborts the sync and is rethrown, while item failures only
extend the collected error list. -/
def syncTransactionsGo (proc : RampTransaction → Except String Unit) :
    List (ℕ → Except String (List RampTransaction)) → ℕ → List SyncError →
      Except String (ℕ × List SyncError)
  | [], synced, errors => Except.ok (synced, errors)
  | pg :: rest, synced, errors =>
    match (fetchTransactionsWithRetry pg 1).2 with
    | Except.error e => Except.error e
    | Except.ok items =>
      let res := processPageItems proc items synced errors
      syncTransactionsGo proc rest res.1 res.2

/-- Embedding of `RampSyncService.syncTransactions` over the page chain,
starting with a zero count and an empty error list. -/
def syncTransactions (proc : RampTransaction → Except String Unit)
    (pages : List (ℕ → Except String (List RampTransaction))) :
    Except String (ℕ × List SyncError) :=
  syncTransactionsGo proc pages 0 []

/-- Fetch oracle failing on every attempt; failing page for the retry
claim's witness. -/
def fetchFailC9 : ℕ → Except String (List RampTransaction) :=
  fun _ => Except.error "ECONNRESET"

/-- Fetch oracle failing on the first attempt and succeeding afterwards;
recovering page for the retry claim's witness. -/
def fetchFlakyC9 : ℕ → Except String (List RampTransaction) :=
  fun n => if n = 1 then Except.error "ECONNRESET" else Except.ok []

/-- Item processor that always succeeds; used by the retry claim's witness. -/
def procOkC9 : RampTransaction → Except String Unit :=
  fun _ => Except.ok ()

/-! ### Supporting lemmas and claim theorems -/

theorem refundPayment_ok_facts {p p' : Payment} {req : Option ℚ} {r : ℚ}
    (h : refundPayment p req = Except.ok (p', r)) :
    p'.amount = p.amount ∧ p'.refundedAmount ≤ p.amount ∧
    p.status = PaymentStatus.succeeded ∧
    (p.amount ≤ p'.refundedAmount → p'.status = PaymentStatus.refunded) ∧
    (¬ p.amount ≤ p'.refundedAmount →
      p'.status = PaymentStatus.partially_refunded) := by
  unfold refundPayment at h
  by_cases hs : p.status = PaymentStatus.succeeded
  · simp only [hs, ne_eq, not_true_eq_false, if_false] at h
    set refundAmount :=
      match req with
      | some a => if a = 0 then p.amount - p.refundedAmount else a
      | none => p.amount - p.refundedAmount with hra
    by_cases hex : refundAmount > p.amount - p.refundedAmount
    · simp [hex] at h
    · simp only [hex, if_false] at h
      rw [Except.ok.injEq, Prod.mk.injEq] at h
      obtain ⟨hp, -⟩ := h
      subst hp
      refine ⟨rfl, by simp; linarith [not_lt.mp hex], hs, ?_, ?_⟩
      · intro hge
        simp only [ge_iff_le]
        simp only at hge
        simp [hge]
      · intro hlt
        simp only [ge_iff_le]
        simp only at hlt
        simp [hlt]
  · simp [hs] at h

theorem refundStep_invariant {p : Payment} (req : Option ℚ)
    (h : p.refundedAmount ≤ p.amount) :
    (refundStep p req).refundedAmount ≤ (refundStep p req).amount := by
  unfold refundStep
  cases hcall : refundPayment p req with
  | ok pr =>
    obtain ⟨p2, r⟩ := pr
    obtain ⟨hamt, hbound, -⟩ := refundPayment_ok_facts hcall
    simpa [hamt] using hbound
  | error e => simpa using h

theorem applyRefunds_invariant (reqs : List (Option ℚ)) :
    ∀ p : Payment, p.refundedAmount ≤ p.amount →
      (applyRefunds p reqs).refundedAmount ≤ (applyRefunds p reqs).amount := by
  induction reqs with
  | nil => intro p h; simpa [applyRefunds] using h
  | cons r rest ih =>
    intro p h
    have hstep := refundStep_invariant r h
    simpa [applyRefunds] using ih (refundStep p r) hstep

theorem refundPayment_error_of_not_succeeded {p : Payment} (req : Option ℚ)
    (h : p.status ≠ PaymentStatus.succeeded) :
    refundPayment p req = Except.error BillingErr.invalidState := by
  unfold refundPayment
  simp [h]

theorem refundPayment_error_of_exceed {p : Payment} {a : ℚ}
    (hinv : p.refundedAmount ≤ p.amount)
    (hexceed : p.amount - p.refundedAmount < a) :
    ∃ e, refundPayment p (some a) = Except.error e := by
  by_cases hs : p.status = PaymentStatus.succeeded
  · refine ⟨BillingErr.invalidInput, ?_⟩
    unfold refundPayment
    have ha0 : ¬ a = 0 := by intro h; subst h; linarith
    simp only [hs, ne_eq, not_true_eq_false, if_false, ha0]
    rw [if_pos]
    exact hexceed
  · exact ⟨BillingErr.invalidState, refundPayment_error_of_not_succeeded _ hs⟩

/-- C7: for every payment, `refundedAmount ≤ amount` holds after any
sequence of `refundPayment` calls; a call whose requested amount exceeds
`amount - refundedAmount` throws and leaves the payment record unchanged;
and a successful call sets the status to `refunded` exactly when the
cumulative refunded amount reaches the payment amount, and to
`partially_refunded` otherwise. -/
theorem refund_bound_C7 (p : Payment) (reqs : List (Option ℚ)) (a : ℚ)
    (hinv : p.refundedAmount ≤ p.amount)
    (hexceed : p.amount - p.refundedAmount < a) :
    ((applyRefunds p reqs).refundedAmount ≤ (applyRefunds p reqs).amount) ∧
    (∃ e, refundPayment p (some a) = Except.error e) ∧
    refundStep p (some a) = p ∧
    (∀ req p₂ r, refundPayment p req = Except.ok (p₂, r) →
      (p₂.refundedAmount = p₂.amount → p₂.status = PaymentStatus.refunded) ∧
      (p₂.refundedAmount ≠ p₂.amount →
        p₂.status = PaymentStatus.partially_refunded)) := by
  obtain ⟨e, herr⟩ := refundPayment_error_of_exceed hinv hexceed
  refine ⟨applyRefunds_invariant reqs p hinv, ⟨e, herr⟩, ?_, ?_⟩
  · unfold refundStep
    rw [herr]
  · intro req p₂ r hok
    obtain ⟨hamt, hbound, -, hge, hlt⟩ := refundPayment_ok_facts hok
    constructor
    · intro heq
      exact hge (by rw [heq, hamt])
    · intro hne
      refine hlt ?_
      intro hle
      exact hne (le_antisymm (hamt ▸ hbound) (hamt ▸ hle))

/-- Witness for C7 at a concrete payment, refund sequence and excess amount. -/
theorem refund_bound_C7_witness :
    paymentC7.refundedAmount ≤ paymentC7.amount ∧
    paymentC7.amount - paymentC7.refundedAmount < 150 ∧
    (((applyRefunds paymentC7 [some 30, some 200, none]).refundedAmount ≤
        (applyRefunds paymentC7 [some 30, some 200, none]).amount) ∧
      (∃ e, refundPayment paymentC7 (some 150) = Except.error e) ∧
      refundStep paymentC7 (some 150) = paymentC7 ∧
      (∀ req p₂ r, refundPayment paymentC7 req = Except.ok (p₂, r) →
        (p₂.refundedAmount = p₂.amount → p₂.status = PaymentStatus.refunded) ∧
        (p₂.refundedAmount ≠ p₂.amount →
          p₂.status = PaymentStatus.partially_refunded))) :=
  ⟨by norm_num [paymentC7], by norm_num [paymentC7],
    refund_bound_C7 paymentC7 [some 30, some 200, none] 150
      (by norm_num [paymentC7]) (by norm_num [paymentC7])⟩

/-- C10: `refundPayment` succeeds only on `succeeded` payments, every
successful refund moves the status to `refunded` or `partially_refunded`,
and therefore every subsequent `refundPayment` call on that payment fails
even when the requested amount is within the remaining refundable bound. -/
theorem refund_single_success_C10 (p q : Payment) (req req2 : Option ℚ)
    (p₂ : Payment) (r : ℚ)
    (hok : refundPayment p req = Except.ok (p₂, r))
    (hq : q.status ≠ PaymentStatus.succeeded) :
    p.status = PaymentStatus.succeeded ∧
    (p₂.status = PaymentStatus.refunded ∨
      p₂.status = PaymentStatus.partially_refunded) ∧
    refundPayment p₂ req2 = Except.error BillingErr.invalidState ∧
    refundPayment q req = Except.error BillingErr.invalidState := by
  obtain ⟨-, -, hsucc, hge, hlt⟩ := refundPayment_ok_facts hok
  have hstat : p₂.status = PaymentStatus.refunded ∨
      p₂.status = PaymentStatus.partially_refunded := by
    by_cases hcase : p.amount ≤ p₂.refundedAmount
    · exact Or.inl (hge hcase)
    · exact Or.inr (hlt hcase)
  have hnot : p₂.status ≠ PaymentStatus.succeeded := by
    rcases hstat with h | h <;> simp [h]
  exact ⟨hsucc, hstat, refundPayment_error_of_not_succeeded _ hnot,
    refundPayment_error_of_not_succeeded _ hq⟩

/-- Witness for C10: a concrete partial refund succeeds once and every
follow-up call fails. -/
theorem refund_single_success_C10_witness :
    refundPayment paymentC10 (some 40) =
      Except.ok
        ({ amount := 100, refundedAmount := 40,
           status := PaymentStatus.partially_refunded, invoiceId := none }, 40) ∧
    paymentC10pending.status ≠ PaymentStatus.succeeded ∧
    (paymentC10.status = PaymentStatus.succeeded ∧
      (({ amount := 100, refundedAmount := 40,
          status := PaymentStatus.partially_refunded,
          invoiceId := none } : Payment).status = PaymentStatus.refunded ∨
        ({ amount := 100, refundedAmount := 40,
           status := PaymentStatus.partially_refunded,
           invoiceId := none } : Payment).status =
          PaymentStatus.partially_refunded) ∧
      refundPayment
        { amount := 100, refundedAmount := 40,
          status := PaymentStatus.partially_refunded, invoiceId := none }
        (some 10) = Except.error BillingErr.invalidState ∧
      refundPayment paymentC10pending (some 40) =
        Except.error BillingErr.invalidState) :=
  ⟨by norm_num [refundPayment, paymentC10], by decide,
    refund_single_success_C10 paymentC10 paymentC10pending (some 40) (some 10)
      { amount := 100, refundedAmount := 40,
        status := PaymentStatus.partially_refunded, invoiceId := none } 40
      (by norm_num [refundPayment, paymentC10]) (by decide)⟩

/-- C1 (refuted by the code): delivering the same payment-succeeded event
twice via `processWebhookPaymentUpdate` is NOT idempotent.  At the failing
input (payment of 100 linked to an open invoice with total 200), one
delivery leaves `amountPaid = 100` and status `open`, while a second
delivery of the same event raises `amountPaid` to 200 and flips the invoice
to `paid`: `updateInvoicePayment` is a blind increment keyed on nothing. -/
theorem webhook_not_idempotent_C1 :
    ((processWebhookPaymentUpdate webhookStateC1 "succeeded").invoice.map
        Invoice.amountPaid = some 100) ∧
    ((processWebhookPaymentUpdate webhookStateC1 "succeeded").invoice.map
        Invoice.status = some InvoiceStatus.open_) ∧
    ((processWebhookPaymentUpdate
        (processWebhookPaymentUpdate webhookStateC1 "succeeded")
        "succeeded").invoice.map Invoice.amountPaid = some 200) ∧
    ((processWebhookPaymentUpdate
        (processWebhookPaymentUpdate webhookStateC1 "succeeded")
        "succeeded").invoice.map Invoice.status = some InvoiceStatus.paid) ∧
    some (100 : ℚ) ≠ some (200 : ℚ) := by
  refine ⟨?_, ?_, ?_, ?_, by norm_num⟩ <;>
    norm_num [processWebhookPaymentUpdate, webhookStateC1,
      mapStripePaymentStatus, updateInvoicePayment, max_def]

/-- C3 counterexample: applying via `updateInvoicePayment` a payment that
exceeds the remaining `amountDue` breaks the balance equation — the invoice
ends with `amountPaid = 150`, `amountDue` clamped to 0, but `total = 100`. -/
theorem invoice_balance_violated_C3 :
    ¬ invoiceBalanced (updateInvoicePayment invoiceC3 150) := by
  norm_num [invoiceBalanced, updateInvoicePayment, invoiceC3, max_def]

/-- C3 (amended): `amountPaid + amountDue = total` holds after `addLineItem`
and after `removeLineItem` unconditionally; after `updateInvoicePayment` the
clamped `amountDue` is never negative, and the balance equation holds
provided the applied amount does not exceed the remaining due. -/
theorem invoice_balance_C3_amended (inv : Invoice)
    (input : CreateLineItemInput) (itemId : String) (amt : ℚ)
    (hle : inv.amountPaid + amt ≤ inv.total) :
    invoiceBalancedE (addLineItem inv input) ∧
    invoiceBalancedE (removeLineItem inv itemId) ∧
    0 ≤ (updateInvoicePayment inv amt).amountDue ∧
    invoiceBalanced (updateInvoicePayment inv amt) := by
  refine ⟨?_, ?_, ?_, ?_⟩
  · unfold addLineItem
    split
    · exact trivial
    · simp only [invoiceBalancedE, invoiceBalanced]
      ring
  · unfold removeLineItem
    split
    · exact trivial
    · simp only [invoiceBalancedE, invoiceBalanced]
      ring
  · unfold updateInvoicePayment
    simp only
    exact le_max_left _ _
  · unfold invoiceBalanced updateInvoicePayment
    simp only
    rw [max_eq_right (by linarith)]
    ring

/-- Witness for the amended C3 theorem at a concrete draft invoice. -/
theorem invoice_balance_C3_witness :
    invoiceC3draft.amountPaid + 40 ≤ invoiceC3draft.total ∧
    (invoiceBalancedE (addLineItem invoiceC3draft lineItemInputC3) ∧
      invoiceBalancedE (removeLineItem invoiceC3draft "li-1") ∧
      0 ≤ (updateInvoicePayment invoiceC3draft 40).amountDue ∧
      invoiceBalanced (updateInvoicePayment invoiceC3draft 40)) :=
  ⟨by norm_num [invoiceC3draft],
    invoice_balance_C3_amended invoiceC3draft lineItemInputC3 "li-1" 40
      (by norm_num [invoiceC3draft])⟩

theorem daysInMonth_pos (y m : ℕ) : 0 < daysInMonth y m := by
  unfold daysInMonth
  split_ifs <;> norm_num

theorem validDate_addMonths_one {d : CalDate} (h : validDate d) :
    validDate (addMonths 1 d) := by
  obtain ⟨h1, h2, h3, h4⟩ := h
  have hpos :=
    daysInMonth_pos (d.year + (d.month - 1 + 1) / 12) ((d.month - 1 + 1) % 12 + 1)
  simp only [validDate, addMonths]
  omega

theorem dateLt_addMonths_one {d : CalDate} (h : validDate d) :
    dateLt d (addMonths 1 d) := by
  obtain ⟨h1, h2, -, -⟩ := h
  simp only [dateLt, addMonths]
  omega

theorem advanceIter_comm (n : ℕ) (sub : SubscriptionRec) :
    advanceIter n (advanceSubscriptionPeriod sub) =
      advanceSubscriptionPeriod (advanceIter n sub) := by
  induction n generalizing sub with
  | zero => rfl
  | succ n ih =>
    show advanceIter n (advanceSubscriptionPeriod (advanceSubscriptionPeriod sub)) = _
    rw [ih]
    rfl

theorem advanceIter_status (n : ℕ) (sub : SubscriptionRec) :
    (advanceIter n sub).status = sub.status := by
  induction n generalizing sub with
  | zero => rfl
  | succ n ih =>
    show (advanceIter n (advanceSubscriptionPeriod sub)).status = _
    rw [ih]
    rfl

theorem advanceIter_valid (n : ℕ) (sub : SubscriptionRec)
    (h : validDate sub.currentPeriodEnd) :
    validDate (advanceIter n sub).currentPeriodEnd := by
  induction n generalizing sub with
  | zero => exact h
  | succ n ih =>
    show validDate (advanceIter n (advanceSubscriptionPeriod sub)).currentPeriodEnd
    exact ih _ (validDate_addMonths_one h)

/-- C4 counterexample: for an active subscription on a plan with billing
interval `day` and interval count 1, `processEndOfPeriodBilling` advances
`currentPeriodEnd` by one calendar month (2024-01-31 → 2024-02-29) instead
of by the plan's interval (2024-01-31 → 2024-02-01). -/
theorem period_advance_violates_plan_interval_C4 :
    (processEndOfPeriodBilling subC4).map (fun pr => pr.2.currentPeriodEnd) =
      some { year := 2024, month := 2, day := 29 } ∧
    (processEndOfPeriodBilling subC4).map (fun pr => pr.2.currentPeriodStart) =
      some subC4.currentPeriodEnd ∧
    planC4day.interval = BillingInterval.day ∧
    planC4day.intervalCount = 1 ∧
    dayjsAdd planC4day.intervalCount planC4day.interval
        subC4.currentPeriodEnd =
      { year := 2024, month := 2, day := 1 } ∧
    some ({ year := 2024, month := 2, day := 29 } : CalDate) ≠
      some ({ year := 2024, month := 2, day := 1 } : CalDate) := by
  decide

/-- C4 (amended): for an active subscription, `processEndOfPeriodBilling`
returns the synthesized invoice with the advanced record; the advance sets
`newPeriodStart = oldPeriodEnd` exactly (no gap or overlap, also across
successive calls) and `newPeriodEnd = newPeriodStart + 1 calendar month`
regardless of the plan's interval; the subscription stays active, so
`currentPeriodEnd` strictly increases across successive calls. -/
theorem period_advance_C4_amended (sub : SubscriptionRec)
    (hact : sub.status = SubscriptionStatus.active)
    (hval : validDate sub.currentPeriodEnd) :
    processEndOfPeriodBilling sub =
      some (createInvoiceFromSubscription sub, advanceSubscriptionPeriod sub) ∧
    (advanceSubscriptionPeriod sub).currentPeriodStart =
      sub.currentPeriodEnd ∧
    (advanceSubscriptionPeriod sub).currentPeriodEnd =
      addMonths 1 (advanceSubscriptionPeriod sub).currentPeriodStart ∧
    (∀ n, (advanceIter n sub).status = SubscriptionStatus.active) ∧
    (∀ n, (advanceIter (n + 1) sub).currentPeriodStart =
      (advanceIter n sub).currentPeriodEnd) ∧
    (∀ n, dateLt (advanceIter n sub).currentPeriodEnd
      (advanceIter (n + 1) sub).currentPeriodEnd) := by
  refine ⟨by simp [processEndOfPeriodBilling, hact], rfl, rfl, ?_, ?_, ?_⟩
  · intro n
    rw [advanceIter_status]
    exact hact
  · intro n
    show (advanceIter n (advanceSubscriptionPeriod sub)).currentPeriodStart = _
    rw [advanceIter_comm]
    rfl
  · intro n
    have hvn := advanceIter_valid n sub hval
    show dateLt (advanceIter n sub).currentPeriodEnd
      (advanceIter n (advanceSubscriptionPeriod sub)).currentPeriodEnd
    rw [advanceIter_comm]
    exact dateLt_addMonths_one hvn

/-- Witness for the amended C4 theorem at a concrete active subscription. -/
theorem period_advance_C4_witness :
    subC4.status = SubscriptionStatus.active ∧
    validDate subC4.currentPeriodEnd ∧
    (processEndOfPeriodBilling subC4 =
      some (createInvoiceFromSubscription subC4,
        advanceSubscriptionPeriod subC4) ∧
    (advanceSubscriptionPeriod subC4).currentPeriodStart =
      subC4.currentPeriodEnd ∧
    (advanceSubscriptionPeriod subC4).currentPeriodEnd =
      addMonths 1 (advanceSubscriptionPeriod subC4).currentPeriodStart ∧
    (∀ n, (advanceIter n subC4).status = SubscriptionStatus.active) ∧
    (∀ n, (advanceIter (n + 1) subC4).currentPeriodStart =
      (advanceIter n subC4).currentPeriodEnd) ∧
    (∀ n, dateLt (advanceIter n subC4).currentPeriodEnd
      (advanceIter (n + 1) subC4).currentPeriodEnd)) :=
  ⟨by decide, by decide,
    period_advance_C4_amended subC4 (by decide) (by decide)⟩

/-- C8 counterexample: the canceled status is not terminal for
`pauseSubscription` — on a canceled subscription it succeeds and rewrites
the status to `paused`, mutating the record. -/
theorem canceled_not_terminal_C8 :
    subC8canceled.status = SubscriptionStatus.canceled ∧
    pauseSubscription subC8canceled =
      Except.ok { subC8canceled with status := SubscriptionStatus.paused } ∧
    ({ subC8canceled with status := SubscriptionStatus.paused } :
        SubscriptionRec) ≠ subC8canceled := by
  refine ⟨rfl, rfl, ?_⟩
  intro h
  have hs := congrArg SubscriptionRec.status h
  simp [subC8canceled] at hs

/-- C8 (amended): once a subscription is canceled, `resumeSubscription`
always fails with InvalidState; but cancellation is not otherwise enforced
as terminal — `pauseSubscription`, `unpauseSubscription`,
`updateSubscription`, `changePlan` (with an active plan) and
`updateQuantity` (with quantity ≥ 1) all succeed on the canceled record and
mutate it. -/
theorem canceled_terminality_C8_amended (sub : SubscriptionRec) (p : Plan)
    (input : UpdateSubscriptionInput) (q : ℚ)
    (hc : sub.status = SubscriptionStatus.canceled)
    (hp : p.active = true) (hq : 1 ≤ q) :
    resumeSubscription sub = Except.error BillingErr.invalidState ∧
    pauseSubscription sub =
      Except.ok { sub with status := SubscriptionStatus.paused } ∧
    ({ sub with status := SubscriptionStatus.paused } :
        SubscriptionRec) ≠ sub ∧
    unpauseSubscription sub =
      Except.ok { sub with status := SubscriptionStatus.active } ∧
    ({ sub with status := SubscriptionStatus.active } :
        SubscriptionRec) ≠ sub ∧
    updateSubscription sub input =
      Except.ok
        { sub with
            planId := input.planId.getD sub.planId,
            quantity := input.quantity.getD sub.quantity,
            cancelAtPeriodEnd :=
              input.cancelAtPeriodEnd.getD sub.cancelAtPeriodEnd } ∧
    changePlan sub p =
      Except.ok { sub with planId := p.id, currency := p.currency } ∧
    updateQuantity sub q = Except.ok { sub with quantity := q } := by
  refine ⟨?_, rfl, ?_, rfl, ?_, rfl, ?_, ?_⟩
  · unfold resumeSubscription
    rw [if_pos hc]
  · intro h
    have hs := congrArg SubscriptionRec.status h
    rw [hc] at hs
    simp at hs
  · intro h
    have hs := congrArg SubscriptionRec.status h
    rw [hc] at hs
    simp at hs
  · unfold changePlan
    rw [if_neg]
    simp [hp]
  · unfold updateQuantity
    rw [if_neg]
    intro hlt
    linarith

/-- Witness for the amended C8 theorem at a concrete canceled subscription,
active plan and update input. -/
theorem canceled_terminality_C8_witness :
    subC8canceled.status = SubscriptionStatus.canceled ∧
    planC8.active = true ∧
    (1 : ℚ) ≤ 2 ∧
    (resumeSubscription subC8canceled =
      Except.error BillingErr.invalidState ∧
    pauseSubscription subC8canceled =
      Except.ok { subC8canceled with status := SubscriptionStatus.paused } ∧
    ({ subC8canceled with status := SubscriptionStatus.paused } :
        SubscriptionRec) ≠ subC8canceled ∧
    unpauseSubscription subC8canceled =
      Except.ok { subC8canceled with status := SubscriptionStatus.active } ∧
    ({ subC8canceled with status := SubscriptionStatus.active } :
        SubscriptionRec) ≠ subC8canceled ∧
    updateSubscription subC8canceled updateInputC8 =
      Except.ok
        { subC8canceled with
            planId := updateInputC8.planId.getD subC8canceled.planId,
            quantity := updateInputC8.quantity.getD subC8canceled.quantity,
            cancelAtPeriodEnd :=
              updateInputC8.cancelAtPeriodEnd.getD
                subC8canceled.cancelAtPeriodEnd } ∧
    changePlan subC8canceled planC8 =
      Except.ok
        { subC8canceled with
            planId := planC8.id,
            currency := planC8.currency } ∧
    updateQuantity subC8canceled 2 =
      Except.ok { subC8canceled with quantity := 2 }) :=
  ⟨by decide, by decide, by norm_num,
    canceled_terminality_C8_amended subC8canceled planC8 updateInputC8 2
      (by decide) (by decide) (by norm_num)⟩

/-- C2 (refuted by the code): `calculateProration` has no `totalDays = 0`
guard — with `currentPeriodStart = currentPeriodEnd` (a same-day period) it
divides by zero, producing non-finite outputs (embedded as `none`) instead
of the spec's policy `{credit: 0, charge: newPlan.amount, netAmount:
newPlan.amount}`. -/
theorem proration_zero_days_unguarded_C2 :
    calculateProration 0 0 0 30 60 = none ∧
    specProration 0 0 30 60 = (0, 60, 60) ∧
    (none : Option (ℚ × ℚ × ℚ)) ≠ some (0, 60, 60) := by
  refine ⟨rfl, rfl, by simp⟩

/-- C6 counterexample: the source rounds with JavaScript `Math.round`
(half toward +∞), not round-half-away-from-zero: with totalDays = 200,
remainingDays = 1, quantity = 2, new plan amount = 1, the raw net amount is
-0.005, which the code rounds to 0.00 while round-half-away-from-zero
yields -0.01. -/
theorem proration_rounding_half_up_C6 :
    calculateProration 0 (200 * msPerDay) (199 * msPerDay) 2 1 =
      some (1 / 100, 1 / 100, 0) ∧
    specProration 200 1 2 1 = (1 / 100, 1 / 100, -(1 / 100)) ∧
    ((0 : ℚ) ≠ -(1 / 100)) := by
  have h1 : dayjsDiffDays (200 * msPerDay) 0 = 200 := by decide
  have h2 : dayjsDiffDays (200 * msPerDay) (199 * msPerDay) = 1 := by decide
  refine ⟨?_, ?_, by norm_num⟩
  · simp only [calculateProration, h1, h2]
    norm_num [roundTo2, jsRound]
  · norm_num [specProration, specRoundTo2]

/-- C6 (amended): whenever `totalDays ≠ 0`, `calculateProration` returns
exactly the spec's credit / charge / netAmount formulas but rounded with
JavaScript `Math.round` at the cent boundary (half toward +∞), which
coincides with round-half-away-from-zero on every non-negative value; the
E2E-3 instance (totalDays 30, remainingDays 10, quantity 30, amount 60)
yields credit 10.00, charge 20.00, netAmount 10.00. -/
theorem proration_C6_amended (periodStart periodEnd changeDate : ℤ)
    (quantity planAmount : ℚ)
    (h : dayjsDiffDays periodEnd periodStart ≠ 0) :
    calculateProration periodStart periodEnd changeDate quantity planAmount =
      some
        (roundTo2 (quantity / (dayjsDiffDays periodEnd periodStart : ℚ) *
            (dayjsDiffDays periodEnd changeDate : ℚ)),
          roundTo2 (planAmount / (dayjsDiffDays periodEnd periodStart : ℚ) *
            (dayjsDiffDays periodEnd changeDate : ℚ)),
          roundTo2 (planAmount / (dayjsDiffDays periodEnd periodStart : ℚ) *
              (dayjsDiffDays periodEnd changeDate : ℚ) -
            quantity / (dayjsDiffDays periodEnd periodStart : ℚ) *
              (dayjsDiffDays periodEnd changeDate : ℚ))) ∧
    (∀ x : ℚ, 0 ≤ x → roundTo2 x = specRoundTo2 x) ∧
    calculateProration 0 (30 * msPerDay) (20 * msPerDay) 30 60 =
      some (10, 20, 10) := by
  refine ⟨?_, ?_, ?_⟩
  · simp only [calculateProration]
    rw [if_neg h]
  · intro x hx
    unfold roundTo2 jsRound specRoundTo2
    rw [if_neg]
    intro hneg
    linarith
  · have h1 : dayjsDiffDays (30 * msPerDay) 0 = 30 := by decide
    have h2 : dayjsDiffDays (30 * msPerDay) (20 * msPerDay) = 10 := by decide
    simp only [calculateProration, h1, h2]
    norm_num [roundTo2, jsRound]

/-- Witness for the amended C6 theorem at the E2E-3 period (30-day period,
change after 20 days). -/
theorem proration_C6_witness :
    dayjsDiffDays (30 * msPerDay) 0 ≠ 0 ∧
    (calculateProration 0 (30 * msPerDay) (20 * msPerDay) 30 60 =
      some
        (roundTo2 ((30 : ℚ) / (dayjsDiffDays (30 * msPerDay) 0 : ℚ) *
            (dayjsDiffDays (30 * msPerDay) (20 * msPerDay) : ℚ)),
          roundTo2 ((60 : ℚ) / (dayjsDiffDays (30 * msPerDay) 0 : ℚ) *
            (dayjsDiffDays (30 * msPerDay) (20 * msPerDay) : ℚ)),
          roundTo2 ((60 : ℚ) / (dayjsDiffDays (30 * msPerDay) 0 : ℚ) *
              (dayjsDiffDays (30 * msPerDay) (20 * msPerDay) : ℚ) -
            (30 : ℚ) / (dayjsDiffDays (30 * msPerDay) 0 : ℚ) *
              (dayjsDiffDays (30 * msPerDay) (20 * msPerDay) : ℚ))) ∧
      (∀ x : ℚ, 0 ≤ x → roundTo2 x = specRoundTo2 x) ∧
      calculateProration 0 (30 * msPerDay) (20 * msPerDay) 30 60 =
        some (10, 20, 10)) :=
  ⟨by decide,
    proration_C6_amended 0 (30 * msPerDay) (20 * msPerDay) 30 60 (by decide)⟩

/-- C5 counterexample: for an active yearly subscription (plan amount 1200,
quantity 5), `getBillingOverview` reports MRR 5 (the quantity, with the
interval hardcoded to 'month'), while the claimed normalization of the plan
amount by its billing interval gives 1200 / 12 = 100. -/
theorem mrr_ignores_plan_interval_C5 :
    (getBillingOverview [subC5] Currency.USD).monthlyRecurringRevenue = 5 ∧
    (getBillingOverview [subC5] Currency.USD).annualRecurringRevenue = 60 ∧
    specMRR [(subC5, planC5year)] Currency.USD = 100 ∧
    ((5 : ℚ) ≠ 100) := by
  refine ⟨?_, ?_, ?_, by norm_num⟩
  · norm_num [getBillingOverview, calculateMRR, normalizeToMonthly, subC5]
  · norm_num [getBillingOverview, calculateMRR, normalizeToMonthly, subC5]
  · norm_num [specMRR, specNormalizeToMonthly, subC5, planC5year]

theorem foldl_add_map_sum {α : Type} (f : α → ℚ) (l : List α) (init : ℚ) :
    l.foldl (fun sum s => sum + f s) init = init + (l.map f).sum := by
  induction l generalizing init with
  | nil => simp
  | cons x xs ih =>
    simp only [List.foldl_cons, List.map_cons, List.sum_cons, ih, add_assoc]

/-- C5 (amended): `getBillingOverview` computes MRR as the plain sum of the
quantities of the active subscriptions in the requested currency — the
plan's amount and billing interval are never consulted, because
`calculateMRR` passes the subscription quantity to `normalizeToMonthly`
with the interval hardcoded to 'month' (the identity row of the table) —
and ARR = MRR × 12. -/
theorem mrr_C5_amended (subs : List SubscriptionRec) (c : Currency) :
    (getBillingOverview subs c).monthlyRecurringRevenue =
      ((subs.filter fun s =>
          decide (s.status = SubscriptionStatus.active ∧
            s.currency = c)).map SubscriptionRec.quantity).sum ∧
    (getBillingOverview subs c).annualRecurringRevenue =
      (getBillingOverview subs c).monthlyRecurringRevenue * 12 := by
  refine ⟨?_, rfl⟩
  show calculateMRR subs c = _
  unfold calculateMRR
  rw [List.filter_filter]
  rw [foldl_add_map_sum (fun s : SubscriptionRec =>
    normalizeToMonthly s.quantity "month")]
  rw [zero_add]
  have hfil : (subs.filter fun s =>
      decide (s.status = SubscriptionStatus.active ∧ s.currency = c)) =
      subs.filter fun a =>
        decide (a.currency = c) &&
          decide (a.status = SubscriptionStatus.active) := by
    apply List.filter_congr
    intro a _
    by_cases h1 : a.status = SubscriptionStatus.active <;>
      by_cases h2 : a.currency = c <;> simp [h1, h2]
  rw [hfil]
  have hmap : ∀ s : SubscriptionRec,
      normalizeToMonthly s.quantity "month" = s.quantity := fun s => rfl
  simp only [hmap]

theorem fetchRetry_ok {fetch : ℕ → Except String (List RampTransaction)}
    {attempt : ℕ} {items : List RampTransaction}
    (h : fetch attempt = Except.ok items) :
    fetchTransactionsWithRetry fetch attempt = ([], Except.ok items) := by
  unfold fetchTransactionsWithRetry
  rw [h]

theorem fetchRetry_error_retry
    {fetch : ℕ → Except String (List RampTransaction)}
    {attempt : ℕ} {e : String}
    (h : fetch attempt = Except.error e) (hlt : attempt < MAX_RETRIES) :
    fetchTransactionsWithRetry fetch attempt =
      (RETRY_DELAY_MS * attempt ::
          (fetchTransactionsWithRetry fetch (attempt + 1)).1,
        (fetchTransactionsWithRetry fetch (attempt + 1)).2) := by
  rw [fetchTransactionsWithRetry]
  rw [h]
  simp [hlt]

theorem fetchRetry_error_last
    {fetch : ℕ → Except String (List RampTransaction)}
    {attempt : ℕ} {e : String}
    (h : fetch attempt = Except.error e) (hnlt : ¬ attempt < MAX_RETRIES) :
    fetchTransactionsWithRetry fetch attempt = ([], Except.error e) := by
  rw [fetchTransactionsWithRetry]
  rw [h]
  simp [hnlt]

theorem fetchRetry_exhausted
    {f : ℕ → Except String (List RampTransaction)} {e1 e2 e3 : String}
    (h1 : f 1 = Except.error e1) (h2 : f 2 = Except.error e2)
    (h3 : f 3 = Except.error e3) :
    fetchTransactionsWithRetry f 1 =
      ([RETRY_DELAY_MS * 1, RETRY_DELAY_MS * 2], Except.error e3) := by
  have l3 := fetchRetry_error_last h3 (by norm_num [MAX_RETRIES])
  have l2 := fetchRetry_error_retry h2 (by norm_num [MAX_RETRIES])
  have l1 := fetchRetry_error_retry h1 (by norm_num [MAX_RETRIES])
  rw [l1, l2, l3]

theorem fetchRetry_congr3
    {g g' : ℕ → Except String (List RampTransaction)}
    (hg1 : g' 1 = g 1) (hg2 : g' 2 = g 2) (hg3 : g' 3 = g 3) :
    fetchTransactionsWithRetry g' 1 = fetchTransactionsWithRetry g 1 := by
  have h3 : fetchTransactionsWithRetry g' 3 =
      fetchTransactionsWithRetry g 3 := by
    cases hh : g 3 with
    | ok items => rw [fetchRetry_ok (hg3.trans hh), fetchRetry_ok hh]
    | error e =>
      have hnlt : ¬ (3 : ℕ) < MAX_RETRIES := by norm_num [MAX_RETRIES]
      rw [fetchRetry_error_last (hg3.trans hh) hnlt,
        fetchRetry_error_last hh hnlt]
  have h2 : fetchTransactionsWithRetry g' 2 =
      fetchTransactionsWithRetry g 2 := by
    cases hh : g 2 with
    | ok items => rw [fetchRetry_ok (hg2.trans hh), fetchRetry_ok hh]
    | error e =>
      have hlt : (2 : ℕ) < MAX_RETRIES := by norm_num [MAX_RETRIES]
      rw [fetchRetry_error_retry (hg2.trans hh) hlt,
        fetchRetry_error_retry hh hlt, h3]
  cases hh : g 1 with
  | ok items => rw [fetchRetry_ok (hg1.trans hh), fetchRetry_ok hh]
  | error e =>
    have hlt : (1 : ℕ) < MAX_RETRIES := by norm_num [MAX_RETRIES]
    rw [fetchRetry_error_retry (hg1.trans hh) hlt,
      fetchRetry_error_retry hh hlt, h2]

/-- C9: `syncTransactions` wraps each page fetch — not per-item processing —
in a bounded retry: at most 3 attempts (the outcome depends only on the
fetch results of attempts 1..3), linear backoff delays
`RETRY_DELAY_MS * attemptNumber` between attempts, and after the 3rd failed
attempt the fetch error is rethrown to the caller, aborting the sync for
that resource type instead of being recorded as a per-item `SyncError`. -/
theorem sync_retry_C9 (f g : ℕ → Except String (List RampTransaction))
    (e1 e2 e3 : String) (proc : RampTransaction → Except String Unit)
    (rest : List (ℕ → Except String (List RampTransaction)))
    (synced : ℕ) (errors : List SyncError)
    (h1 : f 1 = Except.error e1) (h2 : f 2 = Except.error e2)
    (h3 : f 3 = Except.error e3) :
    fetchTransactionsWithRetry f 1 =
      ([RETRY_DELAY_MS * 1, RETRY_DELAY_MS * 2], Except.error e3) ∧
    (∀ items, g 1 = Except.ok items →
      fetchTransactionsWithRetry g 1 = ([], Except.ok items)) ∧
    (∀ e items, g 1 = Except.error e → g 2 = Except.ok items →
      fetchTransactionsWithRetry g 1 =
        ([RETRY_DELAY_MS * 1], Except.ok items)) ∧
    (∀ e e' items, g 1 = Except.error e → g 2 = Except.error e' →
      g 3 = Except.ok items →
      fetchTransactionsWithRetry g 1 =
        ([RETRY_DELAY_MS * 1, RETRY_DELAY_MS * 2], Except.ok items)) ∧
    (∀ g', g' 1 = g 1 → g' 2 = g 2 → g' 3 = g 3 →
      fetchTransactionsWithRetry g' 1 = fetchTransactionsWithRetry g 1) ∧
    syncTransactionsGo proc (f :: rest) synced errors =
      Except.error e3 := by
  refine ⟨fetchRetry_exhausted h1 h2 h3, ?_, ?_, ?_, ?_, ?_⟩
  · intro items hok
    exact fetchRetry_ok hok
  · intro e items herr hok
    have hlt : (1 : ℕ) < MAX_RETRIES := by norm_num [MAX_RETRIES]
    rw [fetchRetry_error_retry herr hlt, fetchRetry_ok hok]
  · intro e e' items herr herr2 hok
    have hlt1 : (1 : ℕ) < MAX_RETRIES := by norm_num [MAX_RETRIES]
    have hlt2 : (2 : ℕ) < MAX_RETRIES := by norm_num [MAX_RETRIES]
    rw [fetchRetry_error_retry herr hlt1, fetchRetry_error_retry herr2 hlt2,
      fetchRetry_ok hok]
  · intro g' hg1 hg2 hg3
    exact fetchRetry_congr3 hg1 hg2 hg3
  · show syncTransactionsGo proc (f :: rest) synced errors = Except.error e3
    rw [syncTransactionsGo]
    rw [fetchRetry_exhausted h1 h2 h3]

/-- Witness for C9 at a concrete always-failing page, a concrete page that
recovers on attempt 2, and a trivial item processor. -/
theorem sync_retry_C9_witness :
    fetchFailC9 1 = Except.error "ECONNRESET" ∧
    fetchFailC9 2 = Except.error "ECONNRESET" ∧
    fetchFailC9 3 = Except.error "ECONNRESET" ∧
    (fetchTransactionsWithRetry fetchFailC9 1 =
      ([RETRY_DELAY_MS * 1, RETRY_DELAY_MS * 2],
        Except.error "ECONNRESET") ∧
    (∀ items, fetchFlakyC9 1 = Except.ok items →
      fetchTransactionsWithRetry fetchFlakyC9 1 = ([], Except.ok items)) ∧
    (∀ e items, fetchFlakyC9 1 = Except.error e →
      fetchFlakyC9 2 = Except.ok items →
      fetchTransactionsWithRetry fetchFlakyC9 1 =
        ([RETRY_DELAY_MS * 1], Except.ok items)) ∧
    (∀ e e' items, fetchFlakyC9 1 = Except.error e →
      fetchFlakyC9 2 = Except.error e' →
      fetchFlakyC9 3 = Except.ok items →
      fetchTransactionsWithRetry fetchFlakyC9 1 =
        ([RETRY_DELAY_MS * 1, RETRY_DELAY_MS * 2], Except.ok items)) ∧
    (∀ g', g' 1 = fetchFlakyC9 1 → g' 2 = fetchFlakyC9 2 →
      g' 3 = fetchFlakyC9 3 →
      fetchTransactionsWithRetry g' 1 =
        fetchTransactionsWithRetry fetchFlakyC9 1) ∧
    syncTransactionsGo procOkC9 [fetchFailC9] 0 [] =
      Except.error "ECONNRESET") :=
  ⟨rfl, rfl, rfl,
    sync_retry_C9 fetchFailC9 fetchFlakyC9 "ECONNRESET" "ECONNRESET"
      "ECONNRESET" procOkC9 [] 0 [] rfl rfl rfl⟩
